import Mathlib

/-!
Shallow embedding of the Chapa payment workflow of `alx_travel_app_0x02`
(`listings/views.py`, `listings/models.py`, `listings/tasks.py`,
`alx_travel_app/settings.py`).

Conventions of the embedding:
* Fixed-point decimals with 2 decimal places (`DecimalField(decimal_places=2)`)
  are represented as an integer number of cents.  `price_per_night` has exactly
  2 decimal places and is multiplied by an integer number of nights, so the
  product is already exact to the cent and `Decimal.quantize(Decimal("0.01"))`
  is the identity on it; the cents representation makes that quantization
  built-in.
* Calendar dates (`DateField`) are day numbers (`Int`); Python
  `(end_date - start_date).days` is plain integer subtraction of those.
* Text statuses (`TextChoices`) become inductive types with one constructor
  per choice.
* The external gateway is an oracle: each operation takes the gateway's
  behaviour for its single outbound call as an argument (`transportError`
  for a `requests.RequestException`, or an HTTP status code plus parsed JSON
  body).
* Unhandled Python exceptions (RuntimeError from the missing-secret check,
  IntegrityError from the one-to-one / unique constraints on `Payment`,
  DoesNotExist from a dangling foreign key) are `Except.error` values.
* `auto_now` / `auto_now_add` timestamp fields are not modelled: no claim
  observes them beyond "other than timestamps".
-/

/-- `PaymentStatus` text choices from `listings/models.py`. -/
inductive PaymentStatus
  | pending
  | success
  | failed
deriving DecidableEq, Repr

/-- `BookingStatus` text choices from `listings/models.py`. -/
inductive BookingStatus
  | pending
  | confirmed
  | cancelled
deriving DecidableEq, Repr

/-- `Listing` model (fields read by the payment workflow). -/
structure Listing where
  id : Nat
  priceCentsPerNight : Int
deriving DecidableEq, Repr

/-- `Booking` model (fields read or written by the payment workflow). -/
structure Booking where
  id : Nat
  listingId : Nat
  startDate : Int
  endDate : Int
  status : BookingStatus
deriving DecidableEq, Repr

/-- `Booking.nights` property: `max((end_date - start_date).days, 0)`. -/
def Booking.nights (b : Booking) : Int :=
  max (b.endDate - b.startDate) 0

/-- Parsed `data` object of a Chapa verify response body. -/
structure VerifyData where
  status : Option String
  reference : Option String
deriving DecidableEq, Repr

/-- Parsed JSON envelope of a Chapa verify response:
`{status: ..., data: {...}}`; `none` marks an absent key. -/
structure VerifyBody where
  status : Option String
  data : Option VerifyData
deriving DecidableEq, Repr

/-- Parsed `data` object of a Chapa initialize response body. -/
structure InitData where
  checkout_url : Option String
  reference : Option String
  currency : Option String
deriving DecidableEq, Repr

/-- Parsed JSON envelope of a Chapa initialize response. -/
structure InitBody where
  status : Option String
  data : Option InitData
deriving DecidableEq, Repr

/-- `Payment` model (fields read or written by the payment workflow;
`created_at` / `updated_at` are auto-maintained timestamps, not modelled). -/
structure Payment where
  bookingId : Nat
  tx_ref : String
  chapa_reference : String
  amountCents : Int
  currency : String
  status : PaymentStatus
  checkout_url : String
  raw_initialize_response : Option InitBody
  raw_verify_response : Option VerifyBody
deriving DecidableEq, Repr

/-- The persistent store: the three tables the payment workflow touches. -/
structure DB where
  listings : List Listing
  bookings : List Booking
  payments : List Payment
deriving DecidableEq, Repr

/-- Process-wide configuration consumed by the views
(`alx_travel_app/settings.py`). -/
structure Settings where
  CHAPA_SECRET_KEY : String
  CHAPA_BASE_URL : String
  CHAPA_CURRENCY : String
  CHAPA_CALLBACK_URL : String
  CHAPA_RETURN_URL : String
deriving DecidableEq, Repr

/-- Module-level evaluation of the Chapa block of `settings.py`:
every key is `os.getenv(name, default)` — total, never raises, and an
absent `CHAPA_SECRET_KEY` silently becomes the empty string. -/
def settingsFromEnv (env : String → Option String) : Settings where
  CHAPA_SECRET_KEY := (env "CHAPA_SECRET_KEY").getD ""
  CHAPA_BASE_URL := (env "CHAPA_BASE_URL").getD "https://api.chapa.co/v1"
  CHAPA_CURRENCY := (env "CHAPA_CURRENCY").getD "ETB"
  CHAPA_CALLBACK_URL :=
    (env "CHAPA_CALLBACK_URL").getD "https://example.com/api/payments/chapa/callback/"
  CHAPA_RETURN_URL :=
    (env "CHAPA_RETURN_URL").getD "https://example.com/payments/complete/"

/-- Unhandled Python exceptions that can escape a request handler. -/
inductive PyExn
  | runtimeError
  | integrityError
  | doesNotExist
  | typeError
  | attributeError
deriving DecidableEq, Repr

/-- `_get_chapa_secret_key`: raises `RuntimeError` when the configured
secret is falsy (absent or empty). -/
def get_chapa_secret_key (s : Settings) : Except PyExn String :=
  if s.CHAPA_SECRET_KEY = "" then .error .runtimeError
  else .ok s.CHAPA_SECRET_KEY

/-- `_calculate_booking_amount`: `nights = booking.nights or 1` (Python
falsiness turns `0` nights into `1`), then
`(price_per_night * nights).quantize(Decimal("0.01"))` — exact in cents. -/
def calculate_booking_amount (b : Booking) (l : Listing) : Int :=
  let nights : Int := if b.nights = 0 then 1 else b.nights
  l.priceCentsPerNight * nights

/-- Behaviour of the single outbound gateway call of an operation:
a transport-level failure (`requests.RequestException`) or an HTTP
response with a status code and a parsed JSON body. -/
inductive GatewayResult (β : Type)
  | transportError
  | response (code : Nat) (body : β)
deriving DecidableEq, Repr

/-- Request payload of `POST /api/payments/chapa/init/` plus the
authenticated user's email and the random hex suffix drawn by
`uuid.uuid4().hex[:8]` (an oracle input: the only nondeterminism).
A missing `booking_id` is the falsy value `0`; missing emails are `""`. -/
structure InitRequest where
  booking_id : Nat
  email : String
  userEmail : String
  uuidSuffix : String
deriving DecidableEq, Repr

deriving instance DecidableEq for Except

/-- HTTP response of the initialize endpoint as far as the claims observe
it: status code, and the `tx_ref` field of the body when present. -/
structure InitResponse where
  code : Nat
  tx_ref : Option String
deriving DecidableEq, Repr

/-- Outcome of one initialize request: the HTTP response (or an unhandled
exception), the store afterwards, and whether the outbound gateway call
was issued. -/
structure InitOutcome where
  result : Except PyExn InitResponse
  db : DB
  gatewayCalled : Bool
deriving DecidableEq, Repr

/-- HTTP response of the verify endpoint as far as the claims observe it:
status code, the `status` body field, the `raw_chapa_status` body field
(outer `Option` = field present in the body, inner = its value), and the
`chapa_reference` body field. -/
structure VerifyResponse where
  code : Nat
  paymentStatus : Option PaymentStatus
  raw_chapa_status : Option (Option String)
  chapa_reference : Option String
deriving DecidableEq, Repr

/-- Outcome of one verify request: the HTTP response (or an unhandled
exception), the store afterwards, whether the outbound gateway call was
issued, and whether `send_payment_confirmation_email.delay` was invoked. -/
structure VerifyOutcome where
  result : Except PyExn VerifyResponse
  db : DB
  gatewayCalled : Bool
  notificationEnqueued : Bool
deriving DecidableEq, Repr

/-- Python `value or fallback` on an optional string: a falsy value
(absent key or empty string) yields the fallback.  Used for
`chapa_data.get("currency") or payload["currency"]` in initialize and
`chapa_data.get("reference") or payment.chapa_reference` in verify. -/
def orFallback (r : Option String) (fallback : String) : String :=
  match r with
  | some v => if v = "" then fallback else v
  | none => fallback

/-- `Payment.objects.create(...)` followed by `booking.status = PENDING;
booking.save()`: appends the new row and rewrites the status of every
booking row with the payment's booking id. -/
def DB.createPaymentAndPendBooking (db : DB) (payment : Payment) : DB :=
  { db with
    payments := db.payments ++ [payment]
    bookings := db.bookings.map
      (fun b => if b.id = payment.bookingId then
        { b with status := .pending } else b) }

/-- `payment.save(...)` keyed by the unique `tx_ref`: replaces the row
whose `tx_ref` matches with the updated in-memory object. -/
def DB.savePayment (db : DB) (tx_ref : String) (payment1 : Payment) : DB :=
  { db with
    payments := db.payments.map
      (fun p => if p.tx_ref = tx_ref then payment1 else p) }

/-- `booking.status = CONFIRMED; booking.save(update_fields=["status"])`. -/
def DB.confirmBooking (db : DB) (bookingId : Nat) : DB :=
  { db with
    bookings := db.bookings.map
      (fun b => if b.id = bookingId then
        { b with status := .confirmed } else b) }

/-- Tail of `InitializeChapaPaymentAPIView.post` after the duplicate-payment
check: amount computation, tx_ref generation, secret lookup, the outbound
call, response-shape checks, `Payment.objects.create` (which enforces the
one-to-one constraint on `booking` and uniqueness of `tx_ref`, raising
`IntegrityError` on violation), and the defensive `booking.status = PENDING`
write. -/
def initAfterDupCheck (s : Settings) (db : DB) (req : InitRequest)
    (booking : Booking) (gw : GatewayResult InitBody) : InitOutcome :=
  match db.listings.find? (fun l => l.id = booking.listingId) with
  | none => ⟨.error .doesNotExist, db, false⟩
  | some listing =>
    let amount := calculate_booking_amount booking listing
    let tx_ref := "booking-" ++ toString booking.id ++ "-" ++ req.uuidSuffix
    match get_chapa_secret_key s with
    | .error e => ⟨.error e, db, false⟩
    | .ok _ =>
      match gw with
      | .transportError => ⟨.ok ⟨502, none⟩, db, true⟩
      | .response code body =>
        if code ≠ 200 ∧ code ≠ 201 then ⟨.ok ⟨502, none⟩, db, true⟩
        else if body.status ≠ some "success" ∨ body.data = none then
          ⟨.ok ⟨502, none⟩, db, true⟩
        else
          let chapa_data := body.data.getD ⟨none, none, none⟩
          let checkout_url := chapa_data.checkout_url.getD ""
          let chapa_reference := chapa_data.reference.getD ""
          let currency := orFallback chapa_data.currency s.CHAPA_CURRENCY
          if db.payments.any
              (fun p => p.bookingId = booking.id ∨ p.tx_ref = tx_ref) then
            ⟨.error .integrityError, db, true⟩
          else
            let payment : Payment :=
              { bookingId := booking.id
                tx_ref := tx_ref
                chapa_reference := chapa_reference
                amountCents := amount
                currency := currency
                status := .pending
                checkout_url := checkout_url
                raw_initialize_response := some body
                raw_verify_response := none }
            ⟨.ok ⟨201, some tx_ref⟩, db.createPaymentAndPendBooking payment, true⟩

/-- `InitializeChapaPaymentAPIView.post`: input validation, booking lookup
(404), email fallback to the authenticated user, the duplicate-successful-
payment guard (the one-to-one reverse accessor `booking.payment`), then
`initAfterDupCheck`. -/
def InitializeChapaPaymentAPIView.post (s : Settings) (db : DB)
    (req : InitRequest) (gw : GatewayResult InitBody) : InitOutcome :=
  if req.booking_id = 0 then ⟨.ok ⟨400, none⟩, db, false⟩
  else
    match db.bookings.find? (fun b => b.id = req.booking_id) with
    | none => ⟨.ok ⟨404, none⟩, db, false⟩
    | some booking =>
      let email := if req.email = "" then req.userEmail else req.email
      if email = "" then ⟨.ok ⟨400, none⟩, db, false⟩
      else
        match db.payments.find? (fun p => p.bookingId = booking.id) with
        | some existing =>
          if existing.status = .success then
            ⟨.ok ⟨400, some existing.tx_ref⟩, db, false⟩
          else initAfterDupCheck s db req booking gw
        | none => initAfterDupCheck s db req booking gw

/-- `VerifyChapaPaymentAPIView.get`: payment lookup by `tx_ref` (404),
secret lookup, the outbound verify call, non-200 short-circuit (502,
nothing persisted), then the success / failure state transition of
`Payment` and (on success) `Booking`, with the confirmation-email enqueue. -/
def VerifyChapaPaymentAPIView.get (s : Settings) (db : DB) (tx_ref : String)
    (gw : GatewayResult VerifyBody) : VerifyOutcome :=
  match db.payments.find? (fun p => p.tx_ref = tx_ref) with
  | none => ⟨.ok ⟨404, none, none, none⟩, db, false, false⟩
  | some payment =>
    match get_chapa_secret_key s with
    | .error e => ⟨.error e, db, false, false⟩
    | .ok _ =>
      match gw with
      | .transportError => ⟨.ok ⟨502, none, none, none⟩, db, true, false⟩
      | .response code body =>
        if code ≠ 200 then ⟨.ok ⟨502, none, none, none⟩, db, true, false⟩
        else
          let chapa_status := body.status
          let chapa_data := body.data.getD ⟨none, none⟩
          let chapa_tx_status := chapa_data.status
          if chapa_status = some "success" ∧ chapa_tx_status = some "success"
          then
            let payment1 : Payment :=
              { payment with
                status := .success
                chapa_reference :=
                  orFallback chapa_data.reference payment.chapa_reference
                raw_verify_response := some body }
            match db.bookings.find? (fun b => b.id = payment.bookingId) with
            | none =>
              -- `payment.booking` raises after `payment.save()` persisted
              ⟨.error .doesNotExist, db.savePayment tx_ref payment1, true, false⟩
            | some _ =>
              ⟨.ok ⟨200, some .success, none, some payment1.chapa_reference⟩,
                (db.savePayment tx_ref payment1).confirmBooking payment.bookingId,
                true, true⟩
          else
            let payment1 : Payment :=
              { payment with
                status := .failed
                raw_verify_response := some body }
            ⟨.ok ⟨400, some .failed, some chapa_tx_status, none⟩,
              db.savePayment tx_ref payment1, true, false⟩

/-- One API operation applied to the store.  The request content, the random
uuid suffix and the gateway's behaviour are arbitrary: the relation covers
every possible run of `Initialize` and `Verify`. -/
inductive Step (s : Settings) : DB → DB → Prop
  | init (db : DB) (req : InitRequest) (gw : GatewayResult InitBody) :
      Step s db (InitializeChapaPaymentAPIView.post s db req gw).db
  | verify (db : DB) (tx_ref : String) (gw : GatewayResult VerifyBody) :
      Step s db (VerifyChapaPaymentAPIView.get s db tx_ref gw).db

/-- States reachable from `db0` by any sequence of operations. -/
def Reachable (s : Settings) (db0 db : DB) : Prop :=
  Relation.ReflTransGen (Step s) db0 db

/-- Initial stores: bookings are created by customer request with the
model default status `pending`; no payments exist yet. -/
@[reducible] def InitialDB (db : DB) : Prop :=
  db.payments = [] ∧ ∀ b ∈ db.bookings, b.status = .pending

/-- The biconditional invariant of the claim: a booking is confirmed iff
its payment has status success. -/
@[reducible] def ConfirmedIffSuccess (db : DB) : Prop :=
  ∀ b ∈ db.bookings, ∀ p ∈ db.payments, p.bookingId = b.id →
    (b.status = .confirmed ↔ p.status = .success)

/-- The direction of the invariant that the code does maintain: a payment
with status success always has a confirmed booking. -/
@[reducible] def SuccessImpliesConfirmed (db : DB) : Prop :=
  ∀ p ∈ db.payments, p.status = .success →
    ∀ b ∈ db.bookings, b.id = p.bookingId → b.status = .confirmed

/-- Shared concrete example: settings with a configured secret. -/
def exSettings : Settings :=
  ⟨"k", "https://api.chapa.co/v1", "ETB", "cb", "ru"⟩

/-- Shared concrete example: a listing at 100.00 per night (10000 cents). -/
def exListing : Listing := ⟨1, 10000⟩

/-- Shared concrete example: a 3-night booking of that listing. -/
def exBooking : Booking := ⟨1, 1, 0, 3, .pending⟩

/-- Shared concrete example: initial store with one listing, one booking,
no payments. -/
def exDB0 : DB := ⟨[exListing], [exBooking], []⟩

/-- Body of a successful gateway initialize response. -/
def exInitBodyOK : InitBody :=
  ⟨some "success", some ⟨some "http://co", some "R0", none⟩⟩

/-- A successful gateway initialize response. -/
def exInitGwOK : GatewayResult InitBody := .response 200 exInitBodyOK

/-- An initialize request for booking 1 with uuid suffix "ab". -/
def exReq : InitRequest := ⟨1, "a@b.c", "", "ab"⟩

/-- Store after a successful Initialize: one pending payment. -/
def exDB1 : DB :=
  (InitializeChapaPaymentAPIView.post exSettings exDB0 exReq exInitGwOK).db

/-- The tx_ref generated for `exReq`. -/
def exTxRef : String := "booking-1-ab"

/-- Body of a gateway verify response reporting success at both levels. -/
def exBodyVerifySuccess : VerifyBody :=
  ⟨some "success", some ⟨some "success", some "R1"⟩⟩

/-- A gateway verify response reporting success at both levels. -/
def exGwVerifySuccess : GatewayResult VerifyBody :=
  .response 200 exBodyVerifySuccess

/-- A gateway verify response whose nested `data.status` is `"pending"`. -/
def exGwVerifyPending : GatewayResult VerifyBody :=
  .response 200 ⟨some "success", some ⟨some "pending", none⟩⟩

/-- Store after a successful Verify: payment success, booking confirmed. -/
def exDB2 : DB :=
  (VerifyChapaPaymentAPIView.get exSettings exDB1 exTxRef exGwVerifySuccess).db

/-- The payment row of `exDB1` (pending, as created by Initialize). -/
def exPaymentPending : Payment :=
  ⟨1, "booking-1-ab", "R0", 30000, "ETB", .pending, "http://co",
    some exInitBodyOK, none⟩

/-- The payment row of `exDB2` (success, as updated by Verify). -/
def exPaymentSuccess : Payment :=
  ⟨1, "booking-1-ab", "R1", 30000, "ETB", .success, "http://co",
    some exInitBodyOK, some exBodyVerifySuccess⟩

/-- Store after re-verifying with a non-success gateway response:
payment failed, booking still confirmed. -/
def exDB3 : DB :=
  (VerifyChapaPaymentAPIView.get exSettings exDB2 exTxRef exGwVerifyPending).db

lemma successImpliesConfirmed_savePayment (db : DB) (t : String) (p1 : Payment)
    (hp1 : p1.status = .success → ∀ b ∈ db.bookings, b.id ≠ p1.bookingId)
    (h : SuccessImpliesConfirmed db) :
    SuccessImpliesConfirmed (db.savePayment t p1) := by
  intro p hp hps b hb hid
  unfold DB.savePayment at hp hb
  rcases List.mem_map.1 hp with ⟨q, hq, hqe⟩
  by_cases hc : q.tx_ref = t
  · rw [if_pos hc] at hqe
    subst hqe
    exact absurd hid (hp1 hps b hb)
  · rw [if_neg hc] at hqe
    subst hqe
    exact h q hq hps b hb hid

lemma successImpliesConfirmed_saveConfirm (db : DB) (t : String) (p1 : Payment)
    (h : SuccessImpliesConfirmed db) :
    SuccessImpliesConfirmed ((db.savePayment t p1).confirmBooking p1.bookingId) := by
  intro p hp hps b hb hid
  unfold DB.confirmBooking DB.savePayment at hp hb
  rcases List.mem_map.1 hb with ⟨b0, hb0, hb0e⟩
  by_cases hcb : b0.id = p1.bookingId
  · rw [if_pos hcb] at hb0e
    subst hb0e
    rfl
  · rw [if_neg hcb] at hb0e
    subst hb0e
    rcases List.mem_map.1 hp with ⟨q, hq, hqe⟩
    by_cases hcq : q.tx_ref = t
    · rw [if_pos hcq] at hqe
      subst hqe
      exact absurd hid hcb
    · rw [if_neg hcq] at hqe
      subst hqe
      exact h q hq hps b0 hb0 hid

lemma successImpliesConfirmed_create (db : DB) (pay : Payment)
    (hpend : pay.status ≠ .success)
    (hno : ∀ q ∈ db.payments, q.bookingId ≠ pay.bookingId)
    (h : SuccessImpliesConfirmed db) :
    SuccessImpliesConfirmed (db.createPaymentAndPendBooking pay) := by
  intro p hp hps b hb hid
  unfold DB.createPaymentAndPendBooking at hp hb
  rcases List.mem_append.1 hp with hp | hp
  · rcases List.mem_map.1 hb with ⟨b0, hb0, hb0e⟩
    by_cases hcb : b0.id = pay.bookingId
    · rw [if_pos hcb] at hb0e
      subst hb0e
      exact absurd (hid.symm.trans hcb) (hno p hp)
    · rw [if_neg hcb] at hb0e
      subst hb0e
      exact h p hp hps b0 hb0 hid
  · rcases List.mem_singleton.1 hp with rfl
    exact absurd hps hpend

lemma sic_initAfterDupCheck (s : Settings) (db : DB) (req : InitRequest)
    (booking : Booking) (gw : GatewayResult InitBody)
    (h : SuccessImpliesConfirmed db) :
    SuccessImpliesConfirmed (initAfterDupCheck s db req booking gw).db := by
  unfold initAfterDupCheck
  dsimp only
  repeat' split
  any_goals exact h
  rename_i hany
  refine successImpliesConfirmed_create db _ ?_ ?_ h
  · intro hc
    simp at hc
  · intro q hq he
    apply hany
    simp only [List.any_eq_true]
    refine ⟨q, hq, ?_⟩
    simp [he]

lemma sic_init_post (s : Settings) (db : DB) (req : InitRequest)
    (gw : GatewayResult InitBody) (h : SuccessImpliesConfirmed db) :
    SuccessImpliesConfirmed (InitializeChapaPaymentAPIView.post s db req gw).db := by
  unfold InitializeChapaPaymentAPIView.post
  dsimp only
  repeat' split
  any_goals exact h
  all_goals exact sic_initAfterDupCheck s db req _ gw h

lemma sic_verify_get (s : Settings) (db : DB) (t : String)
    (gw : GatewayResult VerifyBody) (h : SuccessImpliesConfirmed db) :
    SuccessImpliesConfirmed (VerifyChapaPaymentAPIView.get s db t gw).db := by
  unfold VerifyChapaPaymentAPIView.get
  dsimp only
  repeat' split
  any_goals exact h
  · rename_i hnb
    refine successImpliesConfirmed_savePayment db t _ ?_ h
    intro _ b hb hbid
    have hx := List.find?_eq_none.1 hnb b hb
    simp only [decide_eq_true_eq] at hx
    exact hx hbid
  · exact successImpliesConfirmed_saveConfirm db t _ h
  · refine successImpliesConfirmed_savePayment db t _ ?_ h
    intro hc
    simp at hc

lemma sic_step (s : Settings) (db db1 : DB) (hst : Step s db db1)
    (h : SuccessImpliesConfirmed db) : SuccessImpliesConfirmed db1 := by
  cases hst with
  | init req gw => exact sic_init_post s db req gw h
  | verify t gw => exact sic_verify_get s db t gw h

lemma sic_reachable (s : Settings) (db0 db : DB) (h0 : InitialDB db0)
    (hr : Reachable s db0 db) : SuccessImpliesConfirmed db := by
  induction hr with
  | refl =>
    intro p hp
    rw [h0.1] at hp
    cases hp
  | tail _ hst ih => exact sic_step s _ _ hst ih

/-- C1 counterexample: from an initial store (one pending booking, no
payments), the sequence Initialize, Verify (gateway success), Verify again
(gateway 200 with nested status "pending") reaches a state whose booking is
confirmed while its payment has status failed — the claimed biconditional
invariant fails on a reachable state. -/
theorem c1_counterexample :
    InitialDB exDB0 ∧ Reachable exSettings exDB0 exDB3 ∧
      ¬ ConfirmedIffSuccess exDB3 := by
  refine ⟨by decide, ?_, by decide⟩
  have h1 : Step exSettings exDB0 exDB1 := Step.init exDB0 exReq exInitGwOK
  have h2 : Step exSettings exDB1 exDB2 :=
    Step.verify exDB1 exTxRef exGwVerifySuccess
  have h3 : Step exSettings exDB2 exDB3 :=
    Step.verify exDB2 exTxRef exGwVerifyPending
  exact Relation.ReflTransGen.tail
    (Relation.ReflTransGen.tail (Relation.ReflTransGen.single h1) h2) h3

/-- C1 (amended): in every state reachable from an initial store by any
sequence of Initialize and Verify operations with arbitrary gateway
responses, a Payment with status success always has its Booking confirmed
(Verify sets both together).  The converse direction of the claimed
biconditional is false: re-verifying an already-success payment with a
non-success gateway response overwrites the Payment to failed while the
Booking stays confirmed (see the counterexample). -/
theorem c1_theorem (s : Settings) (db0 db : DB) (h0 : InitialDB db0)
    (hr : Reachable s db0 db) : SuccessImpliesConfirmed db :=
  sic_reachable s db0 db h0 hr

/-- C1 witness: the invariant theorem applied to the concrete initial store
and the concrete state reached by one successful Initialize. -/
theorem c1_witness : SuccessImpliesConfirmed exDB1 :=
  c1_theorem exSettings exDB0 exDB1 (by decide)
    (Relation.ReflTransGen.single (Step.init exDB0 exReq exInitGwOK))

/-- C4: for every booking with a resolved listing, the amount calculator
charges price_per_night × 1 whenever the stay has zero or negative length
(nights = max(end−start, 0) floors to 0, and the `or 1` floors that to one
night), and price_per_night × n for an n-night stay with n > 0; amounts are
exact in cents, so quantization to 2 decimal places changes nothing. -/
theorem c4_theorem (b : Booking) (l : Listing) :
    (b.endDate ≤ b.startDate →
      calculate_booking_amount b l = l.priceCentsPerNight * 1) ∧
    (∀ n : Int, 0 < n → b.endDate - b.startDate = n →
      calculate_booking_amount b l = l.priceCentsPerNight * n) := by
  constructor
  · intro hle
    have hmax : Booking.nights b = 0 := by
      unfold Booking.nights
      omega
    simp [calculate_booking_amount, hmax]
  · intro n hn he
    have hmax : Booking.nights b = n := by
      unfold Booking.nights
      omega
    have hne : Booking.nights b ≠ 0 := by omega
    simp only [calculate_booking_amount, hmax, if_neg (hmax ▸ hne)]

/-- C4 witness: the 100.00-per-night listing with a 3-night booking is
charged exactly 10000 × 3 cents = 300.00. -/
theorem c4_witness :
    (0:Int) < 3 ∧ calculate_booking_amount exBooking exListing = 10000 * 3 :=
  ⟨by decide, (c4_theorem exBooking exListing).2 3 (by decide) (by decide)⟩

/-- C3: Initialize on a booking whose existing payment has status success
returns HTTP 400 with the existing payment's tx_ref in the body, leaves the
store untouched, and never issues the outbound gateway call. -/
theorem c3_theorem (s : Settings) (db : DB) (req : InitRequest)
    (gw : GatewayResult InitBody) (booking : Booking) (p : Payment)
    (hbid : ¬ req.booking_id = 0)
    (hfind : db.bookings.find? (fun b => b.id = req.booking_id) = some booking)
    (hemail : ¬ (if req.email = "" then req.userEmail else req.email) = "")
    (hp : db.payments.find? (fun q => q.bookingId = booking.id) = some p)
    (hsucc : p.status = .success) :
    (InitializeChapaPaymentAPIView.post s db req gw).result
        = .ok ⟨400, some p.tx_ref⟩ ∧
    (InitializeChapaPaymentAPIView.post s db req gw).db = db ∧
    (InitializeChapaPaymentAPIView.post s db req gw).gatewayCalled = false := by
  simp only [InitializeChapaPaymentAPIView.post, if_neg hbid, hfind,
    if_neg hemail, hp, if_pos hsucc]
  exact ⟨trivial, trivial, trivial⟩

/-- C3 witness: the theorem applied to the concrete store `exDB2`, whose
booking 1 already has a success payment with tx_ref "booking-1-ab". -/
theorem c3_witness :
    (InitializeChapaPaymentAPIView.post exSettings exDB2 exReq exInitGwOK).result
        = .ok ⟨400, some "booking-1-ab"⟩ ∧
    (InitializeChapaPaymentAPIView.post exSettings exDB2 exReq exInitGwOK).db
        = exDB2 ∧
    (InitializeChapaPaymentAPIView.post exSettings exDB2 exReq
        exInitGwOK).gatewayCalled = false :=
  c3_theorem exSettings exDB2 exReq exInitGwOK ⟨1, 1, 0, 3, .confirmed⟩
    exPaymentSuccess
    (by decide) (by decide) (by decide) (by decide) (by decide)

/-- The gateway-failure cases of Initialize as the claim enumerates them:
transport failure, HTTP status outside the set containing 200 and 201,
parsed status not "success", or absent data object. -/
@[reducible] def InitGatewayFailed (gw : GatewayResult InitBody) : Prop :=
  gw = .transportError ∨
    ∃ code body, gw = .response code body ∧
      ((code ≠ 200 ∧ code ≠ 201) ∨ body.status ≠ some "success" ∨
        body.data = none)

lemma initAfterDupCheck_fail (s : Settings) (db : DB) (req : InitRequest)
    (booking : Booking) (gw : GatewayResult InitBody) (listing : Listing)
    (hlist : db.listings.find? (fun l => l.id = booking.listingId)
        = some listing)
    (hsec : ¬ s.CHAPA_SECRET_KEY = "")
    (hfail : InitGatewayFailed gw) :
    initAfterDupCheck s db req booking gw = ⟨.ok ⟨502, none⟩, db, true⟩ := by
  rcases hfail with hfail | ⟨code, body, rfl, hbad⟩
  · subst hfail
    simp only [initAfterDupCheck, hlist, get_chapa_secret_key, if_neg hsec]
  · simp only [initAfterDupCheck, hlist, get_chapa_secret_key, if_neg hsec]
    by_cases hc : code ≠ 200 ∧ code ≠ 201
    · rw [if_pos hc]
    · rw [if_neg hc]
      rcases hbad with hbad | hbad
      · exact absurd hbad hc
      · rw [if_pos hbad]

/-- C6: whenever the gateway call of Initialize fails — transport failure,
HTTP status outside the set containing 200 and 201, parsed status not
"success", or absent data object — the endpoint answers HTTP 502 with no
tx_ref (only a generic message body, not modelled beyond its absence of
gateway detail), and the store is unchanged: no payment row is created and
the booking is untouched. -/
theorem c6_theorem (s : Settings) (db : DB) (req : InitRequest)
    (gw : GatewayResult InitBody) (booking : Booking) (listing : Listing)
    (hbid : ¬ req.booking_id = 0)
    (hfind : db.bookings.find? (fun b => b.id = req.booking_id) = some booking)
    (hemail : ¬ (if req.email = "" then req.userEmail else req.email) = "")
    (hnodup : ∀ p, db.payments.find? (fun q => q.bookingId = booking.id)
        = some p → ¬ p.status = .success)
    (hlist : db.listings.find? (fun l => l.id = booking.listingId)
        = some listing)
    (hsec : ¬ s.CHAPA_SECRET_KEY = "")
    (hfail : InitGatewayFailed gw) :
    (InitializeChapaPaymentAPIView.post s db req gw).result = .ok ⟨502, none⟩ ∧
    (InitializeChapaPaymentAPIView.post s db req gw).db = db := by
  have hred : InitializeChapaPaymentAPIView.post s db req gw
      = initAfterDupCheck s db req booking gw := by
    simp only [InitializeChapaPaymentAPIView.post, if_neg hbid, hfind,
      if_neg hemail]
    cases hp : db.payments.find? (fun q => q.bookingId = booking.id) with
    | none => rfl
    | some p =>
      dsimp only
      rw [if_neg (hnodup p hp)]
  rw [hred,
    initAfterDupCheck_fail s db req booking gw listing hlist hsec hfail]
  exact ⟨rfl, rfl⟩

/-- C6 witness: the theorem applied to the concrete initial store with a
transport-level gateway failure. -/
theorem c6_witness :
    (InitializeChapaPaymentAPIView.post exSettings exDB0 exReq
        .transportError).result = .ok ⟨502, none⟩ ∧
    (InitializeChapaPaymentAPIView.post exSettings exDB0 exReq
        .transportError).db = exDB0 :=
  c6_theorem exSettings exDB0 exReq .transportError exBooking exListing
    (by decide) (by decide) (by decide)
    (by intro p hp; simp [exDB0] at hp) (by decide) (by decide) (Or.inl rfl)

lemma verify_get_200_reduce (s : Settings) (db : DB) (t : String)
    (payment : Payment) (body : VerifyBody)
    (hfind : db.payments.find? (fun p => p.tx_ref = t) = some payment)
    (hsec : ¬ s.CHAPA_SECRET_KEY = "") :
    VerifyChapaPaymentAPIView.get s db t (.response 200 body) =
      if body.status = some "success" ∧
          (body.data.getD ⟨none, none⟩).status = some "success" then
        match db.bookings.find? (fun b => b.id = payment.bookingId) with
        | none =>
          ⟨.error .doesNotExist,
            db.savePayment t
              { payment with
                status := .success
                chapa_reference :=
                  orFallback (body.data.getD ⟨none, none⟩).reference
                    payment.chapa_reference
                raw_verify_response := some body }, true, false⟩
        | some _ =>
          ⟨.ok ⟨200, some .success, none,
              some (orFallback (body.data.getD ⟨none, none⟩).reference
                payment.chapa_reference)⟩,
            (db.savePayment t
              { payment with
                status := .success
                chapa_reference :=
                  orFallback (body.data.getD ⟨none, none⟩).reference
                    payment.chapa_reference
                raw_verify_response := some body }).confirmBooking
              payment.bookingId, true, true⟩
      else
        ⟨.ok ⟨400, some .failed,
            some (body.data.getD ⟨none, none⟩).status, none⟩,
          db.savePayment t
            { payment with
              status := .failed
              raw_verify_response := some body }, true, false⟩ := by
  simp only [VerifyChapaPaymentAPIView.get, hfind, get_chapa_secret_key,
    if_neg hsec]
  rw [if_neg (show ¬ (200 : Nat) ≠ 200 by decide)]

/-- C5: for a Verify call on an existing tx_ref where the gateway answers
HTTP 200: if the parsed body has top-level status "success" and nested
data.status "success", the payment row becomes success with chapa_reference
taken from the response when a non-empty one is present (kept otherwise),
every booking row with the payment's booking id becomes confirmed, and the
endpoint answers HTTP 200; in every other case — e.g. nested status
"pending" or a missing data object — the payment row becomes failed, the
bookings table is unchanged, and the endpoint answers HTTP 400 carrying the
raw gateway sub-status. -/
theorem c5_theorem (s : Settings) (db : DB) (t : String) (payment : Payment)
    (b0 : Booking) (body : VerifyBody)
    (hsec : ¬ s.CHAPA_SECRET_KEY = "")
    (hfind : db.payments.find? (fun p => p.tx_ref = t) = some payment)
    (hbook : db.bookings.find? (fun b => b.id = payment.bookingId)
        = some b0) :
    ((body.status = some "success" ∧
        (body.data.getD ⟨none, none⟩).status = some "success") →
      (VerifyChapaPaymentAPIView.get s db t (.response 200 body)).result
          = .ok ⟨200, some .success, none,
              some (orFallback (body.data.getD ⟨none, none⟩).reference
                payment.chapa_reference)⟩ ∧
      (∃ p1 ∈ (VerifyChapaPaymentAPIView.get s db t
            (.response 200 body)).db.payments,
          p1.tx_ref = payment.tx_ref ∧ p1.status = .success ∧
          (∀ r, (body.data.getD ⟨none, none⟩).reference = some r → r ≠ "" →
            p1.chapa_reference = r) ∧
          ((body.data.getD ⟨none, none⟩).reference = none →
            p1.chapa_reference = payment.chapa_reference)) ∧
      (∀ b ∈ (VerifyChapaPaymentAPIView.get s db t
            (.response 200 body)).db.bookings,
          b.id = payment.bookingId → b.status = .confirmed)) ∧
    (¬ (body.status = some "success" ∧
        (body.data.getD ⟨none, none⟩).status = some "success") →
      (VerifyChapaPaymentAPIView.get s db t (.response 200 body)).result
          = .ok ⟨400, some .failed,
              some (body.data.getD ⟨none, none⟩).status, none⟩ ∧
      (∃ p1 ∈ (VerifyChapaPaymentAPIView.get s db t
            (.response 200 body)).db.payments,
          p1.tx_ref = payment.tx_ref ∧ p1.status = .failed) ∧
      (VerifyChapaPaymentAPIView.get s db t
          (.response 200 body)).db.bookings = db.bookings) := by
  have hmem : payment ∈ db.payments := List.mem_of_find?_eq_some hfind
  have htx : payment.tx_ref = t := by
    have h1 := List.find?_some hfind
    simpa using h1
  rw [verify_get_200_reduce s db t payment body hfind hsec]
  constructor
  · intro hss
    rw [if_pos hss, hbook]
    refine ⟨rfl, ?_, ?_⟩
    · refine ⟨_, List.mem_map_of_mem _ hmem, ?_⟩
      rw [if_pos htx]
      refine ⟨rfl, rfl, ?_, ?_⟩
      · intro r hr hne
        simp only [orFallback, hr]
        rw [if_neg hne]
      · intro hn
        simp only [orFallback, hn]
    · intro b hb hbid
      simp only [DB.confirmBooking, DB.savePayment] at hb
      rcases List.mem_map.1 hb with ⟨b1, hb1, hb1e⟩
      by_cases hc : b1.id = payment.bookingId
      · rw [if_pos hc] at hb1e
        subst hb1e
        rfl
      · rw [if_neg hc] at hb1e
        subst hb1e
        exact absurd hbid hc
  · intro hss
    rw [if_neg hss]
    refine ⟨rfl, ?_, rfl⟩
    refine ⟨_, List.mem_map_of_mem _ hmem, ?_⟩
    rw [if_pos htx]
    exact ⟨rfl, rfl⟩

/-- C5 witness: the theorem applied to the store holding the pending
payment, with a success/success gateway body carrying reference "R1". -/
theorem c5_witness :
    (VerifyChapaPaymentAPIView.get exSettings exDB1 exTxRef
        exGwVerifySuccess).result
      = .ok ⟨200, some .success, none, some "R1"⟩ :=
  (((c5_theorem exSettings exDB1 exTxRef exPaymentPending
      ⟨1, 1, 0, 3, .pending⟩ exBodyVerifySuccess
      (by decide) (by decide) (by decide)).1) (by decide)).1

/-- C2 counterexample: the tx_ref of `exDB2` has a success payment, yet a
second Verify call with a gateway body whose nested status is "pending"
overwrites the payment's status to failed — re-verification is not
idempotent and does overwrite a success status. -/
theorem c2_counterexample :
    ((exDB2.payments.find? (fun p => p.tx_ref = exTxRef)).map Payment.status
        = some .success) ∧
    (((VerifyChapaPaymentAPIView.get exSettings exDB2 exTxRef
        exGwVerifyPending).db.payments.find?
        (fun p => p.tx_ref = exTxRef)).map Payment.status
        = some .failed) := by
  decide

/-- C2 (amended): Verify never checks that the payment is already success:
a second call on a success payment re-runs the whole flow.  The gateway is
called again; a 200 response that is not success/success overwrites the
payment's status to failed; and a 200 success/success response enqueues the
confirmation notification again. -/
theorem c2_theorem (s : Settings) (db : DB) (t : String) (payment : Payment)
    (body : VerifyBody)
    (hsec : ¬ s.CHAPA_SECRET_KEY = "")
    (hfind : db.payments.find? (fun p => p.tx_ref = t) = some payment)
    (_hsucc : payment.status = .success) :
    (VerifyChapaPaymentAPIView.get s db t (.response 200 body)).gatewayCalled
        = true ∧
    (¬ (body.status = some "success" ∧
        (body.data.getD ⟨none, none⟩).status = some "success") →
      ∃ p1 ∈ (VerifyChapaPaymentAPIView.get s db t
          (.response 200 body)).db.payments,
        p1.tx_ref = payment.tx_ref ∧ p1.status = .failed) ∧
    ((body.status = some "success" ∧
        (body.data.getD ⟨none, none⟩).status = some "success") →
      ∀ b0, db.bookings.find? (fun b => b.id = payment.bookingId) = some b0 →
        (VerifyChapaPaymentAPIView.get s db t
            (.response 200 body)).notificationEnqueued = true) := by
  have hmem : payment ∈ db.payments := List.mem_of_find?_eq_some hfind
  have htx : payment.tx_ref = t := by
    have h1 := List.find?_some hfind
    simpa using h1
  rw [verify_get_200_reduce s db t payment body hfind hsec]
  refine ⟨?_, ?_, ?_⟩
  · split
    · split
      · rfl
      · rfl
    · rfl
  · intro hss
    rw [if_neg hss]
    refine ⟨_, List.mem_map_of_mem _ hmem, ?_⟩
    rw [if_pos htx]
    exact ⟨rfl, rfl⟩
  · intro hss b0 hbook
    rw [if_pos hss, hbook]

/-- C2 witness: the theorem applied to the store with a success payment and
a success/success gateway body — the notification is enqueued a second
time. -/
theorem c2_witness :
    (VerifyChapaPaymentAPIView.get exSettings exDB2 exTxRef
        (.response 200 exBodyVerifySuccess)).notificationEnqueued = true :=
  (c2_theorem exSettings exDB2 exTxRef exPaymentSuccess exBodyVerifySuccess
      (by decide) (by decide) (by decide)).2.2 (by decide)
    ⟨1, 1, 0, 3, .confirmed⟩ (by decide)

/-- C7 counterexample: booking 1 of `exDB1` has a pending payment; a second
Initialize with a fresh uuid suffix and a successful gateway response does
not create an additional payment row — `Payment.objects.create` violates
the one-to-one constraint on `booking` and the request dies with an
IntegrityError, leaving the store unchanged. -/
theorem c7_counterexample :
    ((InitializeChapaPaymentAPIView.post exSettings exDB1
        ⟨1, "a@b.c", "", "cd"⟩ exInitGwOK).result
        = .error .integrityError) ∧
    ((InitializeChapaPaymentAPIView.post exSettings exDB1
        ⟨1, "a@b.c", "", "cd"⟩ exInitGwOK).db = exDB1) := by
  decide

/-- C7 (amended): Initialize on a booking that already has a pending or
failed payment passes the duplicate-success guard and issues the outbound
gateway call, but the subsequent `Payment.objects.create` always violates
the one-to-one constraint (`OneToOneField`), raising an unhandled
IntegrityError and persisting nothing — payments can never accumulate:
a booking holds at most one payment row. -/
theorem c7_theorem (s : Settings) (db : DB) (req : InitRequest)
    (booking : Booking) (p : Payment) (listing : Listing) (code : Nat)
    (body : InitBody) (d : InitData)
    (hbid : ¬ req.booking_id = 0)
    (hfind : db.bookings.find? (fun b => b.id = req.booking_id) = some booking)
    (hemail : ¬ (if req.email = "" then req.userEmail else req.email) = "")
    (hp : db.payments.find? (fun q => q.bookingId = booking.id) = some p)
    (hnsucc : ¬ p.status = .success)
    (hlist : db.listings.find? (fun l => l.id = booking.listingId)
        = some listing)
    (hsec : ¬ s.CHAPA_SECRET_KEY = "")
    (hcode : code = 200 ∨ code = 201)
    (hstat : body.status = some "success") (hdata : body.data = some d) :
    (InitializeChapaPaymentAPIView.post s db req (.response code body)).result
        = .error .integrityError ∧
    (InitializeChapaPaymentAPIView.post s db req (.response code body)).db
        = db ∧
    (InitializeChapaPaymentAPIView.post s db req
        (.response code body)).gatewayCalled = true := by
  have hred : InitializeChapaPaymentAPIView.post s db req (.response code body)
      = initAfterDupCheck s db req booking (.response code body) := by
    simp only [InitializeChapaPaymentAPIView.post, if_neg hbid, hfind,
      if_neg hemail]
    rw [hp]
    dsimp only
    rw [if_neg hnsucc]
  have hany : db.payments.any
      (fun q => q.bookingId = booking.id ∨
        q.tx_ref = "booking-" ++ toString booking.id ++ "-" ++ req.uuidSuffix)
      = true := by
    have hmem := List.mem_of_find?_eq_some hp
    have hpb : p.bookingId = booking.id := by
      simpa using List.find?_some hp
    simp only [List.any_eq_true]
    exact ⟨p, hmem, by simp [hpb]⟩
  rw [hred]
  simp only [initAfterDupCheck, hlist, get_chapa_secret_key, if_neg hsec]
  rw [if_neg (show ¬ (code ≠ 200 ∧ code ≠ 201) by
    rcases hcode with rfl | rfl <;> simp)]
  rw [if_neg (show ¬ (body.status ≠ some "success" ∨ body.data = none) by
    simp [hstat, hdata])]
  rw [if_pos hany]
  exact ⟨rfl, rfl, rfl⟩

/-- C7 witness: the amended theorem applied to the concrete store with a
pending payment and a fresh uuid suffix. -/
theorem c7_witness :
    ((InitializeChapaPaymentAPIView.post exSettings exDB1
        ⟨1, "a@b.c", "", "zz"⟩ (.response 200 exInitBodyOK)).result
        = .error .integrityError) ∧
    ((InitializeChapaPaymentAPIView.post exSettings exDB1
        ⟨1, "a@b.c", "", "zz"⟩ (.response 200 exInitBodyOK)).db = exDB1) ∧
    ((InitializeChapaPaymentAPIView.post exSettings exDB1
        ⟨1, "a@b.c", "", "zz"⟩ (.response 200 exInitBodyOK)).gatewayCalled
        = true) :=
  c7_theorem exSettings exDB1 ⟨1, "a@b.c", "", "zz"⟩ ⟨1, 1, 0, 3, .pending⟩
    exPaymentPending exListing 200 exInitBodyOK
    ⟨some "http://co", some "R0", none⟩
    (by decide) (by decide) (by decide) (by decide) (by decide) (by decide)
    (by decide) (Or.inl rfl) (by decide) (by decide)

/-- C8 counterexample: the gateway produces a response (HTTP 500 with a
body), yet nothing is persisted: the store is unchanged and the payment's
raw_verify_response is still absent — the view returns 502 before the
assignment `payment.raw_verify_response = data` is ever reached, so the
raw response is NOT persisted unconditionally on every produced response. -/
theorem c8_counterexample :
    ((VerifyChapaPaymentAPIView.get exSettings exDB1 exTxRef
        (.response 500 ⟨some "error", none⟩)).db = exDB1) ∧
    (∀ p ∈ exDB1.payments, p.raw_verify_response = none) := by
  decide

/-- C8 (amended): for every Verify call on an existing tx_ref in which the
gateway responds HTTP 200, the raw gateway body is persisted to the
payment's raw_verify_response regardless of the verification outcome
(success branch, failure branch, and even the success branch whose booking
row is missing); on a non-200 response or transport failure nothing is
persisted. -/
theorem c8_theorem (s : Settings) (db : DB) (t : String) (payment : Payment)
    (body : VerifyBody)
    (hsec : ¬ s.CHAPA_SECRET_KEY = "")
    (hfind : db.payments.find? (fun p => p.tx_ref = t) = some payment) :
    ∃ p1 ∈ (VerifyChapaPaymentAPIView.get s db t
        (.response 200 body)).db.payments,
      p1.tx_ref = payment.tx_ref ∧ p1.raw_verify_response = some body := by
  have hmem : payment ∈ db.payments := List.mem_of_find?_eq_some hfind
  have htx : payment.tx_ref = t := by
    have h1 := List.find?_some hfind
    simpa using h1
  rw [verify_get_200_reduce s db t payment body hfind hsec]
  by_cases hss : body.status = some "success" ∧
      (body.data.getD ⟨none, none⟩).status = some "success"
  · rw [if_pos hss]
    cases hbook : db.bookings.find? (fun b => b.id = payment.bookingId) with
    | none =>
      simp only [DB.savePayment]
      refine ⟨_, List.mem_map_of_mem _ hmem, ?_⟩
      rw [if_pos htx]
      exact ⟨rfl, rfl⟩
    | some b1 =>
      simp only [DB.confirmBooking, DB.savePayment]
      refine ⟨_, List.mem_map_of_mem _ hmem, ?_⟩
      rw [if_pos htx]
      exact ⟨rfl, rfl⟩
  · rw [if_neg hss]
    simp only [DB.savePayment]
    refine ⟨_, List.mem_map_of_mem _ hmem, ?_⟩
    rw [if_pos htx]
    exact ⟨rfl, rfl⟩

/-- C8 witness: the amended theorem applied to the pending payment of
`exDB1` with a 200 success/success body. -/
theorem c8_witness :
    ∃ p1 ∈ (VerifyChapaPaymentAPIView.get exSettings exDB1 exTxRef
        (.response 200 exBodyVerifySuccess)).db.payments,
      p1.tx_ref = "booking-1-ab" ∧ p1.raw_verify_response
        = some exBodyVerifySuccess :=
  c8_theorem exSettings exDB1 exTxRef exPaymentPending exBodyVerifySuccess
    (by decide) (by decide)

/-- C9 counterexample: loading settings with no environment at all succeeds
and silently yields an empty secret — no startup/config-time failure — and
both operations then surface the missing secret as an unhandled per-request
RuntimeError, contradicting the claim that absence is detected at startup
and never surfaced per-request. -/
theorem c9_counterexample :
    ((settingsFromEnv (fun _ => none)).CHAPA_SECRET_KEY = "") ∧
    ((VerifyChapaPaymentAPIView.get (settingsFromEnv (fun _ => none)) exDB1
        exTxRef exGwVerifySuccess).result = .error .runtimeError) ∧
    ((InitializeChapaPaymentAPIView.post (settingsFromEnv (fun _ => none))
        exDB0 exReq exInitGwOK).result = .error .runtimeError) := by
  decide

/-- C9 (amended): settings loading never fails — an absent
CHAPA_SECRET_KEY becomes the empty string at startup — and the missing
secret is instead detected separately inside each request, after the
lookup/validation steps and before the outbound gateway call is attempted
(the gateway is never contacted), surfacing as an unhandled RuntimeError of
that request. -/
theorem c9_theorem (s : Settings) (hsec : s.CHAPA_SECRET_KEY = "") :
    (∀ env : String → Option String, env "CHAPA_SECRET_KEY" = none →
      (settingsFromEnv env).CHAPA_SECRET_KEY = "") ∧
    (∀ (db : DB) (t : String) (gw : GatewayResult VerifyBody)
        (payment : Payment),
      db.payments.find? (fun p => p.tx_ref = t) = some payment →
      (VerifyChapaPaymentAPIView.get s db t gw).result
          = .error .runtimeError ∧
      (VerifyChapaPaymentAPIView.get s db t gw).gatewayCalled = false ∧
      (VerifyChapaPaymentAPIView.get s db t gw).db = db) ∧
    (∀ (db : DB) (req : InitRequest) (gw : GatewayResult InitBody)
        (booking : Booking) (listing : Listing),
      ¬ req.booking_id = 0 →
      db.bookings.find? (fun b => b.id = req.booking_id) = some booking →
      ¬ (if req.email = "" then req.userEmail else req.email) = "" →
      (∀ p, db.payments.find? (fun q => q.bookingId = booking.id) = some p →
        ¬ p.status = .success) →
      db.listings.find? (fun l => l.id = booking.listingId) = some listing →
      (InitializeChapaPaymentAPIView.post s db req gw).result
          = .error .runtimeError ∧
      (InitializeChapaPaymentAPIView.post s db req gw).gatewayCalled
          = false ∧
      (InitializeChapaPaymentAPIView.post s db req gw).db = db) := by
  refine ⟨?_, ?_, ?_⟩
  · intro env he
    simp [settingsFromEnv, he]
  · intro db t gw payment hfind
    simp only [VerifyChapaPaymentAPIView.get, hfind, get_chapa_secret_key,
      if_pos hsec]
    exact ⟨trivial, trivial, trivial⟩
  · intro db req gw booking listing hbid hfind hemail hnodup hlist
    have hred : InitializeChapaPaymentAPIView.post s db req gw
        = initAfterDupCheck s db req booking gw := by
      simp only [InitializeChapaPaymentAPIView.post, if_neg hbid, hfind,
        if_neg hemail]
      cases hp : db.payments.find? (fun q => q.bookingId = booking.id) with
      | none => rfl
      | some p =>
        dsimp only
        rw [if_neg (hnodup p hp)]
    rw [hred]
    simp only [initAfterDupCheck, hlist, get_chapa_secret_key, if_pos hsec]
    exact ⟨trivial, trivial, trivial⟩

/-- C9 witness: the amended theorem applied to settings loaded from an
empty environment and the concrete store with a pending payment. -/
theorem c9_witness :
    ((VerifyChapaPaymentAPIView.get (settingsFromEnv (fun _ => none)) exDB1
        exTxRef exGwVerifySuccess).result = .error .runtimeError) ∧
    ((VerifyChapaPaymentAPIView.get (settingsFromEnv (fun _ => none)) exDB1
        exTxRef exGwVerifySuccess).gatewayCalled = false) ∧
    ((VerifyChapaPaymentAPIView.get (settingsFromEnv (fun _ => none)) exDB1
        exTxRef exGwVerifySuccess).db = exDB1) :=
  (c9_theorem (settingsFromEnv (fun _ => none)) rfl).2.1 exDB1 exTxRef
    exGwVerifySuccess exPaymentPending (by decide)

/-- Positional/keyword parameter names of the celery task
`send_payment_confirmation_email(booking_id, payment_id)` in
`listings/tasks.py`; neither has a default value. -/
def send_payment_confirmation_email_params : List String :=
  ["booking_id", "payment_id"]

/-- Keyword arguments passed by `VerifyChapaPaymentAPIView.get` at the
enqueue site: `send_payment_confirmation_email.delay(booking_id=...,
tx_ref=...)`. -/
def verify_enqueue_kwargs : List String :=
  ["booking_id", "tx_ref"]

/-- Field names of the `Payment` model in `listings/models.py`, plus the
implicit primary key `id`. -/
def payment_model_field_names : List String :=
  ["id", "booking", "tx_ref", "chapa_reference", "amount", "currency",
   "status", "checkout_url", "raw_initialize_response",
   "raw_verify_response", "created_at", "updated_at"]

/-- Python keyword-argument binding for a signature without defaults:
every supplied keyword must name a parameter and every parameter must be
supplied. -/
def kwargs_bind (params kwargs : List String) : Bool :=
  kwargs.all (fun k => params.contains k) &&
    params.all (fun q => kwargs.contains q)

/-- Execution of the confirmation task on a set of enqueued keyword
arguments: argument binding happens first (TypeError on mismatch), then
the task body reads `payment.customer_email` (AttributeError when the
model has no such field) before `send_mail`; `.ok true` marks the one path
on which `send_mail` is reached. -/
def run_confirmation_task (params kwargs fields : List String) :
    Except PyExn Bool :=
  if ¬ kwargs_bind params kwargs then .error .typeError
  else if fields.contains "customer_email" then .ok true
  else .error .attributeError

/-- C10: an enqueued confirmation task can never reach `send_mail`: the
enqueue site passes keyword arguments (booking_id, tx_ref) while the task
signature is (booking_id, payment_id), so binding raises a TypeError — and
independently `customer_email`, which the task body reads, is not a field
of the `Payment` model. -/
theorem c10_theorem :
    run_confirmation_task send_payment_confirmation_email_params
        verify_enqueue_kwargs payment_model_field_names
      = .error .typeError ∧
    send_payment_confirmation_email_params.contains "tx_ref" = false ∧
    payment_model_field_names.contains "customer_email" = false := by
  decide
